import Mathlib

/-!
# Verification of the dog_pool connection-wrapper library

Shallow embedding of the dog_pool sources:
* `redis_connection.go` — the Redis pipelining connection wrapper
  (`RedisConnection`: `Open`, `Close`, `Append`, `GetReply`, `Cmd`, `Ping`,
  `BatchCommands`, `IsOpen`, `IsClosed`, and the lazy/aggressive factories);
* `thrift_connection.go` — the Thrift/HBase pass-through connection wrapper
  (`ThriftConnection`: `Open`, `SafeOpen`, `Close`, `Ping`, `IsOpen`,
  `IsClosed`, forwarded operations `Get` and `AtomicIncrement`, and the
  lazy/aggressive factories);
* `redis_batch_command_factories.go` — the batch-command factory functions.

Modelling conventions:
* Go byte slices (`[]byte`) that always hold textual data are modelled as
  `String`; `nil` slices/pointers are modelled with `Option`.
* The external radix redis client (`redis.Client`) is modelled as a FIFO
  pipeline queue together with a response oracle `server : RedisRequest → Reply`
  capturing the backend's reply to each request of the session; this is exactly
  the external contract the wrapper relies on (pipelined `Append`/`GetReply`
  with the backend answering requests in order).
* Network dialing is an environment parameter `dial : Except String RedisClient`
  (`.error e` = the dial fails with error `e`; `.ok c` = it yields a connected
  raw client `c`).
* Logging and stop-watch instrumentation are purely observational (the spec's
  Timing Instrumentation "must never alter caller behavior") and are omitted
  from the state.
-/

namespace DogPool

/-! ## The external radix redis client (`github.com/fzzy/radix/redis`) -/

namespace redis

/-- Reply types of `redis.Reply` (only `ErrorReply` matters for classification). -/
inductive ReplyType
  | StatusReply
  | ErrorReply
  | IntegerReply
  | NilReply
  | BulkReply
  | MultiReply
  deriving DecidableEq, Repr

/-- `redis.Reply`: a reply type together with the error (`Err`), which is
`none` unless the reply is an error reply. Payload values are irrelevant to
the claims and omitted. -/
structure Reply where
  type : ReplyType
  err : Option String
  deriving DecidableEq, Repr

/-- Error string of `redis.AuthError`. -/
def AuthError : String := "authentication failed"

/-- Error string of `redis.LoadingError`. -/
def LoadingError : String := "server is busy loading dataset in memory"

/-- Error string of `redis.ParseError`. -/
def ParseError : String := "parse error"

/-- Error string of `redis.PipelineQueueEmptyError`. -/
def PipelineQueueEmptyError : String := "pipeline queue empty"

/-- A pipelined request: command keyword plus positional arguments
(each a byte-sequence, modelled as `String`). -/
structure RedisRequest where
  cmd : String
  args : List String
  deriving DecidableEq, Repr

/-- The raw `redis.Client`: the FIFO pipeline queue of requests appended but
not yet answered, the backend's response oracle for this session, and the
result its `Close` will report. -/
structure Client where
  server : RedisRequest → Reply
  queue : List RedisRequest
  closeErr : Option String

/-- `client.Append(cmd, args...)`: push the request onto the pipeline queue. -/
def Client.Append (c : Client) (r : RedisRequest) : Client :=
  { c with queue := c.queue ++ [r] }

/-- `client.GetReply()`: pop the next pending request and return the backend's
reply to it; with an empty queue, return the `PipelineQueueEmptyError` reply. -/
def Client.GetReply (c : Client) : Client × Reply :=
  match c.queue with
  | [] => (c, ⟨ReplyType.ErrorReply, some PipelineQueueEmptyError⟩)
  | r :: rest => ({ c with queue := rest }, c.server r)

end redis

/-! ## RedisConnection (redis_connection.go) -/

/-- `ErrConnectionIsClosed`, the error synthesized by `GetReply` on a closed
connection. Its definition is in a dog_pool file outside the sources; only its
identity matters. -/
def ErrConnectionIsClosed : String := "connection is closed"

/-- Default timeout installed by `Open` when `Timeout` is zero:
`10 * time.Second` in nanoseconds. -/
def defaultTimeoutNs : Int := 10000000000

/-- `RedisConnection`: url, id, timeout (nanoseconds) and the raw client
pointer (`none` = the `nil` pointer = Closed). Logger omitted (observational). -/
structure RedisConnection where
  Url : String
  Id : String
  Timeout : Int
  client : Option redis.Client

/-- `RedisConnection.IsOpen`: true iff the client pointer is non-nil. -/
def RedisConnection.IsOpen (p : RedisConnection) : Bool :=
  p.client.isSome

/-- `RedisConnection.IsClosed`: true iff the client pointer is nil. -/
def RedisConnection.IsClosed (p : RedisConnection) : Bool :=
  p.client.isNone

/-- `RedisConnection.Open`: install the default timeout if unset, then dial;
on dial error return it leaving the connection closed, on success store the
client pointer. -/
def RedisConnection.Open (p : RedisConnection) (dial : Except String redis.Client) :
    RedisConnection × Option String :=
  let p1 := if p.Timeout == 0 then { p with Timeout := defaultTimeoutNs } else p
  match dial with
  | Except.error e => (p1, some e)
  | Except.ok c => ({ p1 with client := some c }, none)

/-- `RedisConnection.Close`: close the raw client if present (recording its
reported error), then set the pointer to nil. -/
def RedisConnection.Close (p : RedisConnection) : RedisConnection × Option String :=
  let err := match p.client with
    | some c => c.closeErr
    | none => none
  ({ p with client := none }, err)

/-- `RedisConnection.Append`: if the connection is not open, attempt `Open`
first and abandon the append if that fails (silent no-op); otherwise push the
command onto the raw client's pipeline queue. Returns the updated connection
(the Go method returns nothing). -/
def RedisConnection.Append (p : RedisConnection) (cmd : String) (args : List String)
    (dial : Except String redis.Client) : RedisConnection :=
  if !p.IsOpen then
    match p.Open dial with
    | (p1, some _) => p1
    | (p1, none) => { p1 with client := p1.client.map (·.Append ⟨cmd, args⟩) }
  else
    { p with client := p.client.map (·.Append ⟨cmd, args⟩) }

/-- The switch in `GetReply` that decides whether an error message is one of
the four transient signals (`redis.AuthError`, `redis.LoadingError`,
`redis.ParseError`, `redis.PipelineQueueEmptyError`). -/
def transientErrorMsg (msg : String) : Bool :=
  msg == redis.AuthError || msg == redis.LoadingError ||
    msg == redis.ParseError || msg == redis.PipelineQueueEmptyError

/-- A reply is transient-error iff it is an error reply carrying one of the
four transient signals. -/
def redis.Reply.transientError (r : redis.Reply) : Bool :=
  r.type == redis.ReplyType.ErrorReply &&
    (match r.err with
     | some msg => transientErrorMsg msg
     | none => false)

/-- A reply is fatal iff it is an error reply that is not one of the four
transient signals (such a reply makes `GetReply` close the connection). -/
def redis.Reply.fatalError (r : redis.Reply) : Bool :=
  r.type == redis.ReplyType.ErrorReply &&
    (match r.err with
     | some msg => !transientErrorMsg msg
     | none => true)

/-- `RedisConnection.GetReply`: on a closed connection synthesize the
`ErrConnectionIsClosed` error reply with no I/O; otherwise pop the next reply,
classify error replies (the four transient signals are only logged; any other
error closes the connection via `Close`, whose own error result is ignored),
and return the reply unmodified. -/
def RedisConnection.GetReply (p : RedisConnection) : RedisConnection × redis.Reply :=
  match p.client with
  | none => (p, ⟨redis.ReplyType.ErrorReply, some ErrConnectionIsClosed⟩)
  | some c =>
    let res := c.GetReply
    let p1 : RedisConnection := { p with client := some res.1 }
    let reply := res.2
    if reply.type = redis.ReplyType.ErrorReply then
      match reply.err with
      | some msg =>
        if transientErrorMsg msg then
          (p1, reply)
        else
          ((p1.Close).1, reply)
      | none => ((p1.Close).1, reply)
    else
      (p1, reply)

/-- `RedisConnection.Cmd`: one `Append` followed by one `GetReply`. -/
def RedisConnection.Cmd (p : RedisConnection) (cmd : String) (args : List String)
    (dial : Except String redis.Client) : RedisConnection × redis.Reply :=
  (p.Append cmd args dial).GetReply

/-- `RedisConnection.Ping`: `Cmd("ping").Err`. -/
def RedisConnection.Ping (p : RedisConnection) (dial : Except String redis.Client) :
    RedisConnection × Option String :=
  let res := p.Cmd "ping" [] dial
  (res.1, res.2.err)

/-- `makeLazyRedisConnection`: build the wrapper with no network activity
(always succeeds; the Go error result is always nil). -/
def makeLazyRedisConnection (url id : String) (timeout : Int) : RedisConnection :=
  { Url := url, Id := id, Timeout := timeout, client := none }

/-- `makeAgressiveRedisConnection`: lazy construction followed by a `Ping`
health check; on ping failure the connection is closed and `(nil, pingErr)`
is returned, otherwise `(connection, nil)`. -/
def makeAgressiveRedisConnection (url id : String) (timeout : Int)
    (dial : Except String redis.Client) : Option RedisConnection × Option String :=
  let p := makeLazyRedisConnection url id timeout
  let res := p.Ping dial
  match res.2 with
  | some e => (none, some e)
  | none => (some res.1, none)

/-! ## RedisBatchCommand (redis_batch_command.go / redis_batch_command_factories.go) -/

/-- `RedisBatchCommand`: command keyword, argument list (`[][]byte`, which may
be the nil slice — hence `Option`), and the reply slot populated during batch
execution. The struct's three fields are visible from its construction sites
in redis_batch_command_factories.go. -/
structure RedisBatchCommand where
  cmd : String
  args : Option (List String)
  reply : Option redis.Reply

/-- The pipelined request a batch command gives rise to (nil and empty
argument slices both append no argument). -/
def RedisBatchCommand.request (c : RedisBatchCommand) : redis.RedisRequest :=
  ⟨c.cmd, c.args.getD []⟩

/-- Round a rational to the nearest integer, ties to even — the IEEE-754
default rounding mode used for all Go float64 arithmetic. -/
def rne (x : ℚ) : ℤ :=
  if x - ⌊x⌋ < 1/2 then ⌊x⌋
  else if 1/2 < x - ⌊x⌋ then ⌊x⌋ + 1
  else if 2 ∣ ⌊x⌋ then ⌊x⌋ else ⌊x⌋ + 1

/-- The error built by `BatchCommands` when the connection closes while
draining: `"[BatchCommands] Connection closed while getting reply for cmd =
%v"` with the in-flight command formatted into the message. -/
def batchClosedMsg (c : RedisBatchCommand) : String :=
  "[BatchCommands] Connection closed while getting reply for cmd = " ++ c.cmd

/-- Phase 2 of `BatchCommands`: for each command in order, `GetReply` into its
reply slot; if the connection is closed after storing a reply, stop and
return the error naming the in-flight command, leaving later commands
untouched. Returns the final connection, the commands with their populated
reply slots, and the error result. -/
def batchDrain : RedisConnection → List RedisBatchCommand →
    RedisConnection × List RedisBatchCommand × Option String
  | p, [] => (p, [], none)
  | p, c :: rest =>
    let res := p.GetReply
    let c1 : RedisBatchCommand := { c with reply := some res.2 }
    if res.1.IsClosed then
      (res.1, c1 :: rest, some (batchClosedMsg c1))
    else
      let tail := batchDrain res.1 rest
      (tail.1, c1 :: tail.2.1, tail.2.2)

/-- Phase 1 of `BatchCommands`: `Append` every command in sequence order
(`Append(cmd)` when the argument slice is nil, `Append(cmd, args...)`
otherwise). -/
def batchAppendPhase (p : RedisConnection) (commands : List RedisBatchCommand)
    (dial : Except String redis.Client) : RedisConnection :=
  commands.foldl
    (fun q c =>
      match c.args with
      | none => q.Append c.cmd [] dial
      | some as => q.Append c.cmd as dial)
    p

/-- `RedisConnection.BatchCommands`: phase 1 appends every command in sequence
order; phase 2 drains the replies in the same order via `batchDrain`. -/
def RedisConnection.BatchCommands (p : RedisConnection)
    (commands : List RedisBatchCommand) (dial : Except String redis.Client) :
    RedisConnection × List RedisBatchCommand × Option String :=
  batchDrain (batchAppendPhase p commands dial) commands

/-! ## The external thrift HBase client (`./thrift`) -/

namespace thrift

/-- An HBase cell value (opaque payload). -/
structure TCell where
  value : String
  deriving DecidableEq, Repr

/-- The raw `thrift.HbaseClient`: response oracles for the forwarded
operations the claims mention, plus the result its `Close` will report. -/
structure HbaseClient where
  getOracle : String → String → String → List (String × String) →
    Option (List TCell) × Option String
  atomicIncrementOracle : String → String → String → Int → Int × Option String
  closeErr : Option String

end thrift

/-! ## ThriftConnection (thrift_connection.go) -/

/-- `ThriftConnection`: url, id, timeout (nanoseconds) and the raw client
pointer (`none` = the `nil` pointer = Closed). Logger omitted. -/
structure ThriftConnection where
  Url : String
  Id : String
  Timeout : Int
  client : Option thrift.HbaseClient

/-- `ThriftConnection.IsOpen`: true iff the client pointer is non-nil. -/
def ThriftConnection.IsOpen (p : ThriftConnection) : Bool :=
  p.client.isSome

/-- `ThriftConnection.IsClosed`: true iff the client pointer is nil. -/
def ThriftConnection.IsClosed (p : ThriftConnection) : Bool :=
  p.client.isNone

/-- `ThriftConnection.Open`: install the default timeout if unset, then open a
fresh client; on error return it leaving the connection closed, on success
store the client pointer. -/
def ThriftConnection.Open (p : ThriftConnection)
    (dial : Except String thrift.HbaseClient) : ThriftConnection × Option String :=
  let p1 := if p.Timeout == 0 then { p with Timeout := defaultTimeoutNs } else p
  match dial with
  | Except.error e => (p1, some e)
  | Except.ok c => ({ p1 with client := some c }, none)

/-- `ThriftConnection.SafeOpen`: no-op if already open, otherwise `Open`. -/
def ThriftConnection.SafeOpen (p : ThriftConnection)
    (dial : Except String thrift.HbaseClient) : ThriftConnection × Option String :=
  if p.IsOpen then (p, none) else p.Open dial

/-- `ThriftConnection.Close`: close the raw client if present (recording its
reported error), then set the pointer to nil. -/
def ThriftConnection.Close (p : ThriftConnection) : ThriftConnection × Option String :=
  let err := match p.client with
    | some c => c.closeErr
    | none => none
  ({ p with client := none }, err)

/-- `ThriftConnection.Ping`: the source is a stub — the real health check is
commented out and the body is `// TODO` followed by `return nil`. -/
def ThriftConnection.Ping (_p : ThriftConnection) : Option String :=
  none

/-- `makeLazyThriftConnection`: build the wrapper with no network activity
(always succeeds; the Go error result is always nil). -/
def makeLazyThriftConnection (url id : String) (timeout : Int) : ThriftConnection :=
  { Url := url, Id := id, Timeout := timeout, client := none }

/-- `makeAgressiveThriftConnection`: lazy construction followed by `Ping`;
on ping failure close and return `(nil, pingErr)`, otherwise
`(connection, nil)`. Since `Ping` is a stub that never fails, no environment
(dial) is ever consulted. -/
def makeAgressiveThriftConnection (url id : String) (timeout : Int) :
    Option ThriftConnection × Option String :=
  let p := makeLazyThriftConnection url id timeout
  match p.Ping with
  | some e =>
    let _ := p.Close
    (none, some e)
  | none => (some p, none)

/-- `ThriftConnection.Get`: `SafeOpen` (abort with its error on failure), then
forward to the raw client; on a returned error close the connection before
propagating, otherwise return the result with the connection untouched. -/
def ThriftConnection.Get (p : ThriftConnection) (tableName row column : String)
    (attributes : List (String × String)) (dial : Except String thrift.HbaseClient) :
    ThriftConnection × Option (List thrift.TCell) × Option String :=
  match p.SafeOpen dial with
  | (p1, some e) => (p1, none, some e)
  | (p1, none) =>
    match p1.client with
    | none => (p1, none, none)
    | some c =>
      let res := c.getOracle tableName row column attributes
      match res.2 with
      | some e => ((p1.Close).1, res.1, some e)
      | none => (p1, res.1, none)

/-- `ThriftConnection.AtomicIncrement`: same forwarding pattern as `Get`,
with `0` as the zero value returned when `SafeOpen` fails. -/
def ThriftConnection.AtomicIncrement (p : ThriftConnection)
    (tableName row column : String) (value : Int)
    (dial : Except String thrift.HbaseClient) :
    ThriftConnection × Int × Option String :=
  match p.SafeOpen dial with
  | (p1, some e) => (p1, 0, some e)
  | (p1, none) =>
    match p1.client with
    | none => (p1, 0, none)
    | some c =>
      let res := c.atomicIncrementOracle tableName row column value
      match res.2 with
      | some e => ((p1.Close).1, res.1, some e)
      | none => (p1, res.1, none)

/-! ## Concrete fixtures used by the witness theorems -/

/-- A concrete backend response function: `BAD` commands draw a fatal error
reply, `WARN` commands draw a transient (loading) error reply, everything else
succeeds with a status reply. -/
def wServer : redis.RedisRequest → redis.Reply := fun r =>
  if r.cmd == "BAD" then ⟨redis.ReplyType.ErrorReply, some "ERR broken pipe"⟩
  else if r.cmd == "WARN" then ⟨redis.ReplyType.ErrorReply, some redis.LoadingError⟩
  else ⟨redis.ReplyType.StatusReply, none⟩

/-- A connected raw client with an empty pipeline over `wServer`. -/
def wClient : redis.Client := ⟨wServer, [], none⟩

/-- An open connection holding `wClient`. -/
def wConn : RedisConnection := ⟨"localhost:6379", "w", 0, some wClient⟩

/-- A closed connection. -/
def wConnClosed : RedisConnection := ⟨"localhost:6379", "w", 0, none⟩

/-- A concrete two-command batch (a SET then a GET). -/
def wCmdsOk : List RedisBatchCommand :=
  [⟨"SET", some ["k", "v"], none⟩, ⟨"GET", some ["k"], none⟩]

/-- A fresh GET command for key `a`. -/
def wCmdA : RedisBatchCommand := ⟨"GET", some ["a"], none⟩

/-- A fresh command drawing a fatal error reply from `wServer`. -/
def wCmdBad : RedisBatchCommand := ⟨"BAD", some [], none⟩

/-- A fresh GET command for key `b`. -/
def wCmdB : RedisBatchCommand := ⟨"GET", some ["b"], none⟩

/-- A raw thrift client whose forwarded operations succeed. -/
def wHbaseOk : thrift.HbaseClient :=
  ⟨fun _ _ _ _ => (some [⟨"cell"⟩], none), fun _ _ _ _ => (7, none), none⟩

/-- A raw thrift client whose forwarded operations fail. -/
def wHbaseBad : thrift.HbaseClient :=
  ⟨fun _ _ _ _ => (none, some "thrift io error"),
   fun _ _ _ _ => (0, some "thrift io error"), none⟩

/-- An open thrift connection holding `wHbaseOk`. -/
def wThriftOk : ThriftConnection := ⟨"hbase:9090", "w", 0, some wHbaseOk⟩

/-- An open thrift connection holding `wHbaseBad`. -/
def wThriftBad : ThriftConnection := ⟨"hbase:9090", "w", 0, some wHbaseBad⟩

/-- A closed thrift connection. -/
def wThriftClosed : ThriftConnection := ⟨"hbase:9090", "w", 0, none⟩

/-! ## Basic lemmas about the redis connection operations -/

/-- Replacing the client field by its own value is the identity. -/
lemma RedisConnection.eta_client (p : RedisConnection) (o : Option redis.Client)
    (h : p.client = o) : ({ p with client := o } : RedisConnection) = p := by
  cases p
  cases h
  rfl

/-- `GetReply` on a closed connection: the synthesized error reply, no state
change. -/
lemma getReply_of_closed (p : RedisConnection) (h : p.client = none) :
    p.GetReply = (p, ⟨redis.ReplyType.ErrorReply, some ErrConnectionIsClosed⟩) := by
  unfold RedisConnection.GetReply
  rw [h]

/-- `GetReply` on an open connection with a pending request: the head request
is popped and answered by the backend; a fatal error reply additionally closes
the connection. -/
lemma getReply_of_open (p : RedisConnection) (c : redis.Client)
    (r : redis.RedisRequest) (rest : List redis.RedisRequest)
    (hc : p.client = some c) (hq : c.queue = r :: rest) :
    p.GetReply =
      (if (c.server r).fatalError
        then { p with client := none }
        else { p with client := some { c with queue := rest } },
       c.server r) := by
  unfold RedisConnection.GetReply
  rw [hc]
  simp only [redis.Client.GetReply, hq]
  rcases hr : c.server r with ⟨ty, er⟩
  cases ty <;> cases er <;>
    simp [redis.Reply.fatalError, RedisConnection.Close, hr] <;>
    rename_i msg <;>
    cases htm : transientErrorMsg msg <;>
    simp [htm]

/-- `Append` on an open connection pushes the request onto the pipeline. -/
lemma append_of_open (p : RedisConnection) (c : redis.Client)
    (cmd : String) (args : List String) (dial : Except String redis.Client)
    (hc : p.client = some c) :
    p.Append cmd args dial = { p with client := some (c.Append ⟨cmd, args⟩) } := by
  unfold RedisConnection.Append
  simp [RedisConnection.IsOpen, hc]

/-- Phase 1 of `BatchCommands` on an open connection appends the commands'
requests to the pipeline queue in sequence order. -/
lemma batchAppendPhase_of_open (cmds : List RedisBatchCommand) :
    ∀ (p : RedisConnection) (c : redis.Client) (dial : Except String redis.Client),
    p.client = some c →
    batchAppendPhase p cmds dial =
      { p with client := some { c with queue := c.queue ++ cmds.map RedisBatchCommand.request } } := by
  induction cmds with
  | nil =>
    intro p c dial hc
    simp only [batchAppendPhase, List.foldl_nil, List.map_nil, List.append_nil]
    exact (RedisConnection.eta_client p (some c) hc).symm
  | cons cm rest ih =>
    intro p c dial hc
    have hstep :
        (match cm.args with
          | none => p.Append cm.cmd [] dial
          | some as => p.Append cm.cmd as dial) =
        { p with client := some (c.Append cm.request) } := by
      rcases hargs : cm.args with _ | as <;>
        simp [hargs, append_of_open p c _ _ dial hc, RedisBatchCommand.request]
    have hfold : batchAppendPhase p (cm :: rest) dial =
        batchAppendPhase { p with client := some (c.Append cm.request) } rest dial := by
      simp only [batchAppendPhase, List.foldl_cons]
      rw [hstep]
    rw [hfold, ih _ (c.Append cm.request) dial rfl]
    simp [redis.Client.Append, List.append_assoc]

/-- Draining a batch whose replies are all non-fatal assigns every command the
backend's reply to its own request, in order, consumes exactly the batch's
prefix of the pipeline queue, and reports no error. -/
lemma batchDrain_ok (cmds : List RedisBatchCommand) :
    ∀ (p : RedisConnection) (c : redis.Client) (q0 : List redis.RedisRequest),
    p.client = some c →
    c.queue = cmds.map RedisBatchCommand.request ++ q0 →
    (∀ cm ∈ cmds, (c.server cm.request).fatalError = false) →
    batchDrain p cmds =
      ({ p with client := some { c with queue := q0 } },
       cmds.map (fun cm => { cm with reply := some (c.server cm.request) }),
       none) := by
  induction cmds with
  | nil =>
    intro p c q0 hc hq hok
    simp only [batchDrain, List.map_nil]
    have h1 : ({ c with queue := q0 } : redis.Client) = c := by
      cases c
      simp only [List.map_nil, List.nil_append] at hq
      rw [hq]
    rw [h1, RedisConnection.eta_client p (some c) hc]
  | cons cm rest ih =>
    intro p c q0 hc hq hok
    have hnf : (c.server cm.request).fatalError = false :=
      hok cm (List.mem_cons_self cm rest)
    have hget : p.GetReply =
        ({ p with client := some { c with
            queue := rest.map RedisBatchCommand.request ++ q0 } },
         c.server cm.request) := by
      rw [getReply_of_open p c cm.request (rest.map RedisBatchCommand.request ++ q0)
        hc (by simpa using hq), hnf]
      simp
    simp only [batchDrain, hget]
    have hopen : ({ p with client := some { c with
        queue := rest.map RedisBatchCommand.request ++ q0 } } :
        RedisConnection).IsClosed = false := by
      simp [RedisConnection.IsClosed]
    rw [hopen]
    simp only [Bool.false_eq_true, if_false]
    rw [ih _ { c with queue := rest.map RedisBatchCommand.request ++ q0 } q0 rfl rfl
      (fun x hx => hok x (List.mem_cons_of_mem cm hx))]
    simp

/-- Draining a batch whose first fatal reply is at command `cm` (after the
non-fatal prefix `pre`): the prefix and `cm` get their replies assigned, the
commands after `cm` are returned untouched, the connection ends Closed, and
the error names the in-flight command. -/
lemma batchDrain_fatal (pre : List RedisBatchCommand) :
    ∀ (p : RedisConnection) (c : redis.Client) (cm : RedisBatchCommand)
      (post : List RedisBatchCommand) (q0 : List redis.RedisRequest),
    p.client = some c →
    c.queue = (pre ++ cm :: post).map RedisBatchCommand.request ++ q0 →
    (∀ x ∈ pre, (c.server x.request).fatalError = false) →
    (c.server cm.request).fatalError = true →
    batchDrain p (pre ++ cm :: post) =
      ({ p with client := none },
       pre.map (fun x => { x with reply := some (c.server x.request) }) ++
         ({ cm with reply := some (c.server cm.request) } :: post),
       some (batchClosedMsg cm)) := by
  induction pre with
  | nil =>
    intro p c cm post q0 hc hq hfatal hcm
    have hget : p.GetReply =
        ({ p with client := none }, c.server cm.request) := by
      rw [getReply_of_open p c cm.request (post.map RedisBatchCommand.request ++ q0)
        hc (by simpa using hq), hcm]
      simp
    simp only [List.nil_append, batchDrain, hget]
    have hclosed : ({ p with client := none } : RedisConnection).IsClosed = true := by
      simp [RedisConnection.IsClosed]
    rw [hclosed]
    simp [batchClosedMsg]
  | cons x pre ih =>
    intro p c cm post q0 hc hq hfatal hcm
    have hnf : (c.server x.request).fatalError = false :=
      hfatal x (List.mem_cons_self x pre)
    have hget : p.GetReply =
        ({ p with client := some { c with
            queue := (pre ++ cm :: post).map RedisBatchCommand.request ++ q0 } },
         c.server x.request) := by
      rw [getReply_of_open p c x.request
        ((pre ++ cm :: post).map RedisBatchCommand.request ++ q0)
        hc (by simpa using hq), hnf]
      simp
    simp only [List.cons_append, batchDrain, hget]
    have hopen : ({ p with client := some { c with
        queue := (pre ++ cm :: post).map RedisBatchCommand.request ++ q0 } } :
        RedisConnection).IsClosed = false := by
      simp [RedisConnection.IsClosed]
    rw [hopen]
    simp only [Bool.false_eq_true, if_false, List.append_eq]
    rw [ih { p with client := some { c with
        queue := (pre ++ cm :: post).map RedisBatchCommand.request ++ q0 } }
      { c with queue := (pre ++ cm :: post).map RedisBatchCommand.request ++ q0 }
      cm post q0 rfl rfl
      (fun y hy => hfatal y (List.mem_cons_of_mem x hy)) hcm]
    simp

/-! ## Rounding lemmas for the float64 model -/

/-- Evaluation lemma: `rne` at a point whose fractional part is below one
half rounds down. -/
lemma rne_eq_of_lt_half (x : ℚ) (v : ℤ) (hf : ⌊x⌋ = v) (h : x - v < 1/2) :
    rne x = v := by
  unfold rne
  rw [hf, if_pos h]

/-- C6: `GetReply` on a Closed `RedisConnection` returns an error reply whose
error is the synthesized `ErrConnectionIsClosed`, performs no network I/O and
leaves the connection state unchanged (the result connection is the input
connection itself). -/
theorem c6_getReply_closed_synthesizes_error (p : RedisConnection)
    (h : p.IsClosed = true) :
    p.GetReply = (p, ⟨redis.ReplyType.ErrorReply, some ErrConnectionIsClosed⟩) := by
  apply getReply_of_closed
  simpa [RedisConnection.IsClosed, Option.isNone_iff_eq_none] using h

/-- Witness for C6 at a concrete closed connection. -/
theorem c6_getReply_closed_synthesizes_error_witness :
    wConnClosed.GetReply =
      (wConnClosed, ⟨redis.ReplyType.ErrorReply, some ErrConnectionIsClosed⟩) :=
  c6_getReply_closed_synthesizes_error wConnClosed rfl

/-- C5: `Append` on a Closed `RedisConnection` whose implicit `Open` attempt
fails leaves the connection Closed with no client (so nothing is enqueued into
any pipeline), and a subsequent `GetReply` produces only the synthesized
connection-closed reply — never a reply for the appended command. The Go
`Append` returns no value, so the caller receives no error by construction. -/
theorem c5_append_closed_failed_open_is_noop (p : RedisConnection)
    (cmd : String) (args : List String) (e : String)
    (h : p.IsClosed = true) :
    (p.Append cmd args (Except.error e)).client = none ∧
    (p.Append cmd args (Except.error e)).IsClosed = true ∧
    (p.Append cmd args (Except.error e)).GetReply =
      (p.Append cmd args (Except.error e),
       ⟨redis.ReplyType.ErrorReply, some ErrConnectionIsClosed⟩) := by
  have hc : p.client = none := by
    simpa [RedisConnection.IsClosed, Option.isNone_iff_eq_none] using h
  have happ : (p.Append cmd args (Except.error e)).client = none := by
    unfold RedisConnection.Append RedisConnection.Open
    simp [RedisConnection.IsOpen, hc]
    split <;> simp [hc]
  refine ⟨happ, ?_, getReply_of_closed _ happ⟩
  simp [RedisConnection.IsClosed, happ]

/-- Witness for C5 at a concrete closed connection. -/
theorem c5_append_closed_failed_open_is_noop_witness :
    (wConnClosed.Append "SET" ["k", "v"] (Except.error "connection refused")).client
        = none ∧
    (wConnClosed.Append "SET" ["k", "v"] (Except.error "connection refused")).IsClosed
        = true ∧
    (wConnClosed.Append "SET" ["k", "v"] (Except.error "connection refused")).GetReply =
      (wConnClosed.Append "SET" ["k", "v"] (Except.error "connection refused"),
       ⟨redis.ReplyType.ErrorReply, some ErrConnectionIsClosed⟩) :=
  c5_append_closed_failed_open_is_noop wConnClosed "SET" ["k", "v"]
    "connection refused" rfl

/-- C8: for both connection variants and every connection state, `IsOpen` and
`IsClosed` are logical complements. -/
theorem c8_isOpen_isClosed_complement (p : RedisConnection) (q : ThriftConnection) :
    p.IsOpen = !p.IsClosed ∧ p.IsClosed = !p.IsOpen ∧
    q.IsOpen = !q.IsClosed ∧ q.IsClosed = !q.IsOpen := by
  cases hp : p.client <;> cases hq : q.client <;>
    simp [RedisConnection.IsOpen, RedisConnection.IsClosed,
      ThriftConnection.IsOpen, ThriftConnection.IsClosed, hp, hq]

/-- C10: for both connection variants and every starting state, after `Close`
the connection is Closed (the raw client handle is discarded even when the
underlying close reports an error), and `Close` returns the underlying
client's close error when a client was held. -/
theorem c10_close_always_discards_client (p : RedisConnection) (q : ThriftConnection) :
    (p.Close).1.IsClosed = true ∧
    (p.Close).1.client = none ∧
    (p.Close).2 = (match p.client with
      | some c => c.closeErr
      | none => none) ∧
    (q.Close).1.IsClosed = true ∧
    (q.Close).1.client = none ∧
    (q.Close).2 = (match q.client with
      | some c => c.closeErr
      | none => none) :=
  ⟨rfl, rfl, rfl, rfl, rfl, rfl⟩

/-- C4 (code divergence): the aggressive thrift factory never health-checks —
`ThriftConnection.Ping` is a stub returning nil — so for any url (reachable or
not, since no dial environment is even consulted) it returns a non-nil
connection and a nil error; by contrast the aggressive redis factory against a
failing dial returns a nil connection and a non-nil error as the spec says. -/
theorem c4_aggressive_thrift_factory_never_fails :
    makeAgressiveThriftConnection "unreachable:9090" "w" 0 =
      (some (makeLazyThriftConnection "unreachable:9090" "w" 0), none) ∧
    makeAgressiveRedisConnection "unreachable:6379" "w" 0
        (Except.error "connection refused") =
      (none, some ErrConnectionIsClosed) :=
  ⟨rfl, rfl⟩

/-- C2: an error reply returned by `GetReply` is always returned unmodified;
when its message is one of the four transient signals the connection stays
Open (only the pipeline head is consumed), and for any other error content the
connection is closed as a side effect. -/
theorem c2_getReply_error_classification (p : RedisConnection) (c : redis.Client)
    (r : redis.RedisRequest) (rest : List redis.RedisRequest)
    (hc : p.client = some c) (hq : c.queue = r :: rest)
    (herr : (c.server r).type = redis.ReplyType.ErrorReply) :
    (p.GetReply).2 = c.server r ∧
    ((c.server r).transientError = true →
      (p.GetReply).1 = { p with client := some { c with queue := rest } } ∧
      (p.GetReply).1.IsOpen = true) ∧
    ((c.server r).fatalError = true →
      (p.GetReply).1 = { p with client := none } ∧
      (p.GetReply).1.IsClosed = true) := by
  rw [getReply_of_open p c r rest hc hq]
  refine ⟨rfl, ?_, ?_⟩
  · intro htr
    have hnf : (c.server r).fatalError = false := by
      rcases hcs : c.server r with ⟨ty, er⟩
      rw [hcs] at htr
      cases ty <;> cases er <;>
        simp_all [redis.Reply.transientError, redis.Reply.fatalError]
    simp [hnf, RedisConnection.IsOpen]
  · intro hf
    simp [hf, RedisConnection.IsClosed]

/-- Witness for C2: a transient (loading) error reply leaves the connection
Open, a fatal error reply closes it; both replies come back unmodified. -/
theorem c2_getReply_error_classification_witness :
    ((RedisConnection.mk "localhost:6379" "w" 0
        (some ⟨wServer, [⟨"WARN", []⟩], none⟩)).GetReply).2 =
        wServer ⟨"WARN", []⟩ ∧
    ((wServer ⟨"WARN", []⟩).transientError = true →
      ((RedisConnection.mk "localhost:6379" "w" 0
          (some ⟨wServer, [⟨"WARN", []⟩], none⟩)).GetReply).1 =
        { RedisConnection.mk "localhost:6379" "w" 0
            (some ⟨wServer, [⟨"WARN", []⟩], none⟩) with
          client := some ⟨wServer, [], none⟩ } ∧
      ((RedisConnection.mk "localhost:6379" "w" 0
          (some ⟨wServer, [⟨"WARN", []⟩], none⟩)).GetReply).1.IsOpen = true) ∧
    ((wServer ⟨"WARN", []⟩).fatalError = true →
      ((RedisConnection.mk "localhost:6379" "w" 0
          (some ⟨wServer, [⟨"WARN", []⟩], none⟩)).GetReply).1 =
        { RedisConnection.mk "localhost:6379" "w" 0
            (some ⟨wServer, [⟨"WARN", []⟩], none⟩) with
          client := none } ∧
      ((RedisConnection.mk "localhost:6379" "w" 0
          (some ⟨wServer, [⟨"WARN", []⟩], none⟩)).GetReply).1.IsClosed = true) ∧
    ((RedisConnection.mk "localhost:6379" "w" 0
        (some ⟨wServer, [⟨"BAD", []⟩], none⟩)).GetReply).2 =
        wServer ⟨"BAD", []⟩ ∧
    ((wServer ⟨"BAD", []⟩).fatalError = true →
      ((RedisConnection.mk "localhost:6379" "w" 0
          (some ⟨wServer, [⟨"BAD", []⟩], none⟩)).GetReply).1 =
        { RedisConnection.mk "localhost:6379" "w" 0
            (some ⟨wServer, [⟨"BAD", []⟩], none⟩) with
          client := none } ∧
      ((RedisConnection.mk "localhost:6379" "w" 0
          (some ⟨wServer, [⟨"BAD", []⟩], none⟩)).GetReply).1.IsClosed = true) := by
  have h1 := c2_getReply_error_classification
    (RedisConnection.mk "localhost:6379" "w" 0 (some ⟨wServer, [⟨"WARN", []⟩], none⟩))
    ⟨wServer, [⟨"WARN", []⟩], none⟩ ⟨"WARN", []⟩ [] rfl rfl (by decide)
  have h2 := c2_getReply_error_classification
    (RedisConnection.mk "localhost:6379" "w" 0 (some ⟨wServer, [⟨"BAD", []⟩], none⟩))
    ⟨wServer, [⟨"BAD", []⟩], none⟩ ⟨"BAD", []⟩ [] rfl rfl (by decide)
  exact ⟨h1.1, h1.2.1, h1.2.2, h2.1, h2.2.2⟩

/-- C3: submitting N batch commands to an Open connection (empty pipeline)
where no reply is fatal makes `BatchCommands` return nil, assign a reply to
all N commands in submission order, each command's reply being the backend's
reply to that same command's request, with the connection still Open. -/
theorem c3_batchCommands_fifo_correspondence (p : RedisConnection)
    (c : redis.Client) (cmds : List RedisBatchCommand)
    (dial : Except String redis.Client)
    (hc : p.client = some c) (hq : c.queue = [])
    (hok : ∀ cm ∈ cmds, (c.server cm.request).fatalError = false) :
    (p.BatchCommands cmds dial).2.2 = none ∧
    (p.BatchCommands cmds dial).2.1 =
      cmds.map (fun cm => { cm with reply := some (c.server cm.request) }) ∧
    (p.BatchCommands cmds dial).1.IsOpen = true := by
  unfold RedisConnection.BatchCommands
  rw [batchAppendPhase_of_open cmds p c dial hc,
    batchDrain_ok cmds _
      { c with queue := c.queue ++ cmds.map RedisBatchCommand.request } []
      rfl (by simp [hq]) hok]
  simp [RedisConnection.IsOpen]

/-- Witness for C3 on a concrete SET/GET batch. -/
theorem c3_batchCommands_fifo_correspondence_witness :
    (wConn.BatchCommands wCmdsOk (Except.error "down")).2.2 = none ∧
    (wConn.BatchCommands wCmdsOk (Except.error "down")).2.1 =
      wCmdsOk.map (fun cm => { cm with reply := some (wClient.server cm.request) }) ∧
    (wConn.BatchCommands wCmdsOk (Except.error "down")).1.IsOpen = true :=
  c3_batchCommands_fifo_correspondence wConn wClient wCmdsOk (Except.error "down")
    rfl rfl (by decide)

/-- C1: if the batch's M-th reply is fatal (all earlier replies non-fatal,
commands after M submitted fresh), `BatchCommands` returns a non-nil error
naming the in-flight command, commands 1..M-1 (and M itself) have their
replies assigned, commands M+1..N have no reply assigned, and the connection
ends Closed. -/
theorem c1_batchCommands_fatal_stops_draining (p : RedisConnection)
    (c : redis.Client) (pre : List RedisBatchCommand) (cm : RedisBatchCommand)
    (post : List RedisBatchCommand) (dial : Except String redis.Client)
    (hc : p.client = some c) (hq : c.queue = [])
    (hpre : ∀ x ∈ pre, (c.server x.request).fatalError = false)
    (hcm : (c.server cm.request).fatalError = true)
    (hpost : ∀ x ∈ post, x.reply = none) :
    (p.BatchCommands (pre ++ cm :: post) dial).2.2 = some (batchClosedMsg cm) ∧
    (p.BatchCommands (pre ++ cm :: post) dial).2.1 =
      pre.map (fun x => { x with reply := some (c.server x.request) }) ++
        ({ cm with reply := some (c.server cm.request) } :: post) ∧
    (∀ x ∈ (p.BatchCommands (pre ++ cm :: post) dial).2.1.drop (pre.length + 1),
      x.reply = none) ∧
    (p.BatchCommands (pre ++ cm :: post) dial).1.IsClosed = true := by
  unfold RedisConnection.BatchCommands
  rw [batchAppendPhase_of_open _ p c dial hc,
    batchDrain_fatal pre _
      { c with queue := c.queue ++ (pre ++ cm :: post).map RedisBatchCommand.request }
      cm post [] rfl (by simp [hq]) hpre hcm]
  refine ⟨rfl, rfl, ?_, rfl⟩
  intro x hx
  have hdrop :
      (pre.map (fun y : RedisBatchCommand => { y with reply := some (c.server y.request) }) ++
        ({ cm with reply := some (c.server cm.request) } :: post)).drop
          (pre.length + 1) = post := by
    rw [show pre.map (fun y : RedisBatchCommand => { y with reply := some (c.server y.request) }) ++
        ({ cm with reply := some (c.server cm.request) } :: post) =
        (pre.map (fun y : RedisBatchCommand => { y with reply := some (c.server y.request) }) ++
          [{ cm with reply := some (c.server cm.request) }]) ++ post by
      simp]
    exact List.drop_left' (by simp)
  rw [hdrop] at hx
  exact hpost x hx

/-- Witness for C1: a three-command batch whose middle reply is fatal. -/
theorem c1_batchCommands_fatal_stops_draining_witness :
    (wConn.BatchCommands ([wCmdA] ++ wCmdBad :: [wCmdB]) (Except.error "down")).2.2 =
      some (batchClosedMsg wCmdBad) ∧
    (wConn.BatchCommands ([wCmdA] ++ wCmdBad :: [wCmdB]) (Except.error "down")).2.1 =
      [wCmdA].map
          (fun x : RedisBatchCommand =>
            { x with reply := some (wClient.server x.request) }) ++
        ({ wCmdBad with reply := some (wClient.server wCmdBad.request) } ::
          [wCmdB]) ∧
    (∀ x ∈ ((wConn.BatchCommands ([wCmdA] ++ wCmdBad :: [wCmdB])
        (Except.error "down")).2.1.drop ([wCmdA].length + 1)),
      x.reply = none) ∧
    (wConn.BatchCommands ([wCmdA] ++ wCmdBad :: [wCmdB])
        (Except.error "down")).1.IsClosed = true :=
  c1_batchCommands_fatal_stops_draining wConn wClient [wCmdA] wCmdBad [wCmdB]
    (Except.error "down") rfl rfl (by decide) (by decide) (by decide)

/-- C7: the forwarded wide-column operations (`Get`, `AtomicIncrement`)
follow the fixed pattern — if the connection is Closed and `SafeOpen` fails,
the call aborts with that error and the underlying client is never invoked
(the connection still holds no client); otherwise the call is forwarded, on a
returned error the connection is closed before the error propagates, and on
success the result propagates untouched with the connection state unchanged
(still Open). -/
theorem c7_thrift_forwarding_pattern (p : ThriftConnection)
    (c : thrift.HbaseClient) (dial : Except String thrift.HbaseClient)
    (t row col : String) (attrs : List (String × String)) (v : Int)
    (e msg : String) (out : Option (List thrift.TCell)) (n : Int) :
    (p.client = none →
      (p.Get t row col attrs (Except.error e)).2.2 = some e ∧
      (p.Get t row col attrs (Except.error e)).2.1 = none ∧
      (p.Get t row col attrs (Except.error e)).1.client = none ∧
      (p.AtomicIncrement t row col v (Except.error e)).2.2 = some e ∧
      (p.AtomicIncrement t row col v (Except.error e)).2.1 = 0 ∧
      (p.AtomicIncrement t row col v (Except.error e)).1.client = none) ∧
    (p.client = some c → c.getOracle t row col attrs = (out, some msg) →
      p.Get t row col attrs dial = ({ p with client := none }, out, some msg)) ∧
    (p.client = some c → c.atomicIncrementOracle t row col v = (n, some msg) →
      p.AtomicIncrement t row col v dial = ({ p with client := none }, n, some msg)) ∧
    (p.client = some c → c.getOracle t row col attrs = (out, none) →
      p.Get t row col attrs dial = (p, out, none)) ∧
    (p.client = some c → c.atomicIncrementOracle t row col v = (n, none) →
      p.AtomicIncrement t row col v dial = (p, n, none)) := by
  refine ⟨fun hc => ?_, fun hc ho => ?_, fun hc ho => ?_,
    fun hc ho => ?_, fun hc ho => ?_⟩
  · refine ⟨?_, ?_, ?_, ?_, ?_, ?_⟩ <;>
      simp only [ThriftConnection.Get, ThriftConnection.AtomicIncrement,
        ThriftConnection.SafeOpen, ThriftConnection.Open, ThriftConnection.IsOpen, hc,
        Option.isSome_none, Bool.false_eq_true, if_false] <;>
      split <;> simp [hc]
  all_goals
    simp [ThriftConnection.Get, ThriftConnection.AtomicIncrement,
      ThriftConnection.SafeOpen, ThriftConnection.IsOpen, ThriftConnection.Close,
      hc, ho]

/-- Witness for C7: the abort, close-on-error and success branches at
concrete connections and clients. -/
theorem c7_thrift_forwarding_pattern_witness :
    ((wThriftClosed.Get "tbl" "row" "col" []
        (Except.error "connection refused")).2.2 = some "connection refused" ∧
     (wThriftClosed.Get "tbl" "row" "col" []
        (Except.error "connection refused")).2.1 = none ∧
     (wThriftClosed.Get "tbl" "row" "col" []
        (Except.error "connection refused")).1.client = none ∧
     (wThriftClosed.AtomicIncrement "tbl" "row" "col" 1
        (Except.error "connection refused")).2.2 = some "connection refused" ∧
     (wThriftClosed.AtomicIncrement "tbl" "row" "col" 1
        (Except.error "connection refused")).2.1 = 0 ∧
     (wThriftClosed.AtomicIncrement "tbl" "row" "col" 1
        (Except.error "connection refused")).1.client = none) ∧
    (wThriftBad.Get "tbl" "row" "col" [] (Except.error "down") =
      ({ wThriftBad with client := none }, none, some "thrift io error")) ∧
    (wThriftBad.AtomicIncrement "tbl" "row" "col" 1 (Except.error "down") =
      ({ wThriftBad with client := none }, 0, some "thrift io error")) ∧
    (wThriftOk.Get "tbl" "row" "col" [] (Except.error "down") =
      (wThriftOk, some [⟨"cell"⟩], none)) ∧
    (wThriftOk.AtomicIncrement "tbl" "row" "col" 1 (Except.error "down") =
      (wThriftOk, 7, none)) := by
  have h1 := c7_thrift_forwarding_pattern wThriftClosed wHbaseOk
    (Except.error "connection refused") "tbl" "row" "col" [] 1
    "connection refused" "x" none 0
  have h2 := c7_thrift_forwarding_pattern wThriftBad wHbaseBad
    (Except.error "down") "tbl" "row" "col" [] 1 "e" "thrift io error" none 0
  have h3 := c7_thrift_forwarding_pattern wThriftOk wHbaseOk
    (Except.error "down") "tbl" "row" "col" [] 1 "e" "m" (some [⟨"cell"⟩]) 7
  exact ⟨h1.1 rfl, h2.2.1 rfl rfl, h2.2.2.1 rfl rfl,
    h3.2.2.2.1 rfl rfl, h3.2.2.2.2 rfl rfl⟩

end DogPool
